import Mathlib

/-!
Verification of the asynchronous process runner of blame-browse
(src/git-reader.c).  The reader spawns an external process, watches its
stdout and stderr pipes and its exit, accumulates stderr into an error
string, and emits a single "completed" signal once the child has exited
and both pipes have reached end-of-stream (or immediately on a hard read
error).

The embedding is a state machine: `GitReaderPrivate` mirrors the C
private struct, extended with the main-loop bookkeeping that GLib keeps
for the reader (which watch sources are still armed) and with the
observable outputs (the list of emitted completion results, the debug
bytes written by the stdout handler, the chunks handed to fwrite, and
whether the child was reaped/terminated).  Each C callback becomes a
function on this state; `step` delivers one main-loop event, which is
only possible while the corresponding watch is armed.
-/

/-- Result kinds of `g_io_channel_read_chars` as seen by the two stream
callbacks: `G_IO_STATUS_NORMAL` with the bytes read, `G_IO_STATUS_EOF`,
`G_IO_STATUS_ERROR` with the GError message, `G_IO_STATUS_AGAIN`. -/
inductive ReadResult where
  | normal (chunk : List Char)
  | eof
  | ioErr (msg : List Char)
  | again
deriving Repr, DecidableEq

/-- Structured errors delivered with the "completed" signal: an
exit-status error built by `git_reader_check_complete` (detail is the
truncated stderr text when the computed length was positive, `none` for
the generic message), or the GError of a failed pipe read, passed
through by `git_reader_on_read_error`. -/
inductive GError where
  | exitStatus (detail : Option (List Char))
  | ioErr (msg : List Char)
deriving Repr, DecidableEq

/-- The full message text of a completion error: `g_set_error` formats
the exit-status error as "Error invoking git: %s" or the bare generic
text "Error invoking git". -/
def gerror_message : GError → List Char
  | GError.exitStatus none => ("Error invoking git").toList
  | GError.exitStatus (some d) => ("Error invoking git: ").toList ++ d
  | GError.ioErr m => m

/-- Main-loop events a running invocation can receive: the child watch
fires with the waitpid status, or one of the two io watches fires and
its read returns a `ReadResult`. -/
inductive Event where
  | childExit (status : Int)
  | stdoutReady (r : ReadResult)
  | stderrReady (r : ReadResult)
deriving Repr, DecidableEq

/-- State of one GitReader: the fields of `GitReaderPrivate` (with the
GString error buffer as a byte list and source ids as Nat, 0 meaning
"no source recorded"), plus the GLib main-loop bookkeeping (whether
each watch source still exists) and the observable outputs of the
callbacks. -/
structure GitReaderPrivate where
  has_child : Bool
  child_pid : Nat
  child_stdout_source : Nat
  child_stderr_source : Nat
  child_watch_source : Nat
  child_exit_code : Int
  error_string : List Char
  /-- the stdout io watch is still installed in the main loop -/
  stdoutArmed : Bool
  /-- the stderr io watch is still installed in the main loop -/
  stderrArmed : Bool
  /-- the child watch is still installed in the main loop -/
  childWatchArmed : Bool
  /-- the stdout GIOChannel has not been shut down -/
  stdout_channel_open : Bool
  /-- the stderr GIOChannel has not been shut down -/
  stderr_channel_open : Bool
  /-- results carried by the "completed" signal emissions, in order -/
  emitted : List (Option GError)
  /-- the waitpid/kill teardown of `git_reader_close_process` ran on a
  live pid, guaranteeing the child is reaped and no longer running -/
  killed : Bool
  /-- bytes written to the program's own stdout by the debug print of
  `git_reader_on_child_stdout` -/
  debugOut : List Char
  /-- the chunk payloads passed to fwrite by the stdout handler -/
  deliveredChunks : List (List Char)
deriving Repr, DecidableEq

/-- C `isspace` on the byte values that can appear here (default
locale): space, tab, newline, vertical tab, form feed, carriage
return. -/
def c_isspace (c : Char) : Bool :=
  c = ' ' || c = '\t' || c = '\n' || c = '\x0b' || c = '\x0c' || c = '\r'

/-- The final value of `len` in the trimming loop of
`git_reader_check_complete`: starting from `error_string->len - 1`,
decrement while `len > 0` and the character at index `len` is a space.
The argument is the current value of `len` (the loop is only entered
with an in-bounds index, so the out-of-bounds default is irrelevant). -/
def trim_index (s : List Char) : Nat → Nat
  | 0 => 0
  | n + 1 => if c_isspace (s.getD (n + 1) 'A') then trim_index s n else n + 1

/-- The error (if any) built by `git_reader_check_complete` once all
three completion signals are in: nonzero exit code yields an
exit-status error whose detail is the error string truncated to the
final `len` when `len > 0`, and the generic error otherwise; a zero
exit code yields no error.  For an empty buffer `len` starts at -1, the
cast to gsize makes `g_string_truncate` a no-op and `len > 0` is
false. -/
def completion_error (exit_code : Int) (es : List Char) : Option GError :=
  if exit_code ≠ 0 then
    if es.length = 0 then some (GError.exitStatus none)
    else
      if trim_index es (es.length - 1) > 0 then
        some (GError.exitStatus (some (es.take (trim_index es (es.length - 1)))))
      else some (GError.exitStatus none)
  else none

/-- The error string after `git_reader_check_complete` ran its
truncation (only reached with a nonzero exit code; an empty buffer is
left alone because the -1 length cast to gsize makes the truncation a
no-op). -/
def truncated_error_string (exit_code : Int) (es : List Char) : List Char :=
  if exit_code ≠ 0 then
    if es.length = 0 then es
    else es.take (trim_index es (es.length - 1))
  else es

/-- `git_reader_close_process`: if a child is recorded, clear
`has_child`, remove whichever io watch sources are still recorded, shut
down both channels, and if the pid is live: when `kill_child` is set,
remove the child watch and reap the child (waitpid, killing it first if
still running), then clear the pid.  Clearing an already-zero pid is a
no-op, so the pid is cleared unconditionally here. -/
def git_reader_close_process (s : GitReaderPrivate) (kill_child : Bool) :
    GitReaderPrivate :=
  if s.has_child = true then
    if s.child_pid ≠ 0 ∧ kill_child = true then
      { s with has_child := false,
               stdoutArmed := if s.child_stdout_source ≠ 0 then false else s.stdoutArmed,
               stderrArmed := if s.child_stderr_source ≠ 0 then false else s.stderrArmed,
               stdout_channel_open := false,
               stderr_channel_open := false,
               childWatchArmed := false,
               killed := true,
               child_pid := 0 }
    else
      { s with has_child := false,
               stdoutArmed := if s.child_stdout_source ≠ 0 then false else s.stdoutArmed,
               stderrArmed := if s.child_stderr_source ≠ 0 then false else s.stderrArmed,
               stdout_channel_open := false,
               stderr_channel_open := false,
               child_pid := 0 }
  else s

/-- `git_reader_check_complete`: when the pid and both io source ids
are zero, close the process (without killing), truncate the error
string, build the completion error from the exit code and the error
text, and emit the "completed" signal once. -/
def git_reader_check_complete (s : GitReaderPrivate) : GitReaderPrivate :=
  if s.child_pid = 0 ∧ s.child_stdout_source = 0 ∧ s.child_stderr_source = 0 then
    { git_reader_close_process s false with
        error_string := truncated_error_string s.child_exit_code s.error_string,
        emitted := s.emitted ++ [completion_error s.child_exit_code s.error_string] }
  else s

/-- `git_reader_on_child_exit`: the child watch fired (GLib removes the
child watch source after it runs); close the pid, record the status,
and run the completion check. -/
def git_reader_on_child_exit (s : GitReaderPrivate) (status : Int) : GitReaderPrivate :=
  git_reader_check_complete
    { s with child_pid := 0, child_exit_code := status, childWatchArmed := false }

/-- `git_reader_on_read_error`: a pipe read failed hard; close the
process with `kill_child` set and emit the "completed" signal
immediately, carrying the read error. -/
def git_reader_on_read_error (s : GitReaderPrivate) (msg : List Char) : GitReaderPrivate :=
  { git_reader_close_process s true with
      emitted := (git_reader_close_process s true).emitted ++ [some (GError.ioErr msg)] }

/-- The stdout bytes actually written by the debug print of the stdout
handler for one chunk: `fputs ("got stdout: \"")`, `fwrite` of the
chunk, `fputs ("\"\n")`. -/
def debug_wrap (chunk : List Char) : List Char :=
  ("got stdout: \"").toList ++ chunk ++ ("\"\n").toList

/-- `git_reader_on_child_stdout`: on a hard read error run the
read-error path (and the FALSE return removes the watch); on a normal
read print the chunk between debug markers; on EOF zero the stdout
source id, run the completion check, and return FALSE (removing the
watch); on AGAIN do nothing. -/
def git_reader_on_child_stdout (s : GitReaderPrivate) (r : ReadResult) : GitReaderPrivate :=
  match r with
  | ReadResult.ioErr m => { git_reader_on_read_error s m with stdoutArmed := false }
  | ReadResult.normal chunk =>
      { s with debugOut := s.debugOut ++ debug_wrap chunk,
               deliveredChunks := s.deliveredChunks ++ [chunk] }
  | ReadResult.eof =>
      { git_reader_check_complete { s with child_stdout_source := 0 } with
          stdoutArmed := false }
  | ReadResult.again => s

/-- `git_reader_on_child_stderr`: same state machine as the stdout
handler except that a normal read appends the chunk to the error
string. -/
def git_reader_on_child_stderr (s : GitReaderPrivate) (r : ReadResult) : GitReaderPrivate :=
  match r with
  | ReadResult.ioErr m => { git_reader_on_read_error s m with stderrArmed := false }
  | ReadResult.normal chunk =>
      { s with error_string := s.error_string ++ chunk }
  | ReadResult.eof =>
      { git_reader_check_complete { s with child_stderr_source := 0 } with
          stderrArmed := false }
  | ReadResult.again => s

/-- Deliver one main-loop event: a callback can only run while its
watch source is still installed; otherwise the event cannot occur. -/
def step (s : GitReaderPrivate) (e : Event) : Option GitReaderPrivate :=
  match e with
  | Event.childExit status =>
      if s.childWatchArmed = true then some (git_reader_on_child_exit s status) else none
  | Event.stdoutReady r =>
      if s.stdoutArmed = true then some (git_reader_on_child_stdout s r) else none
  | Event.stderrReady r =>
      if s.stderrArmed = true then some (git_reader_on_child_stderr s r) else none

/-- Run a sequence of main-loop events; `none` if some event could not
have occurred. -/
def runEvents : GitReaderPrivate → List Event → Option GitReaderPrivate
  | s, [] => some s
  | s, e :: evs =>
      match step s e with
      | none => none
      | some s2 => runEvents s2 evs

/-- A freshly constructed reader (`git_reader_init`): empty error
string, no child, nothing armed, nothing emitted. -/
def git_reader_new : GitReaderPrivate :=
  { has_child := false, child_pid := 0, child_stdout_source := 0,
    child_stderr_source := 0, child_watch_source := 0, child_exit_code := 0,
    error_string := [], stdoutArmed := false, stderrArmed := false,
    childWatchArmed := false, stdout_channel_open := false,
    stderr_channel_open := false, emitted := [], killed := false,
    debugOut := [], deliveredChunks := [] }

/-- Outcome of `g_spawn_async_with_pipes`: success yields the new pid
together with the ids the subsequent `g_child_watch_add` and two
`g_io_add_watch` calls return (all nonzero in GLib); failure carries
the GError message. -/
inductive SpawnOutcome where
  | ok (pid stdout_src stderr_src watch_src : Nat)
  | fail (msg : List Char)
deriving Repr, DecidableEq

/-- `git_reader_start`: first `git_reader_close_process (reader, TRUE)`
tears down any previous invocation, then the argument vector is built
and the spawn attempted.  On spawn failure the function returns FALSE
at once: no watch is armed and the error string is left alone.  On
success the child watch and both io watches are armed, the channels
opened, `has_child` set, and the error string truncated to empty. -/
def git_reader_start (s : GitReaderPrivate) (outcome : SpawnOutcome) :
    GitReaderPrivate × Bool :=
  match outcome with
  | SpawnOutcome.fail _ => (git_reader_close_process s true, false)
  | SpawnOutcome.ok pid stdout_src stderr_src watch_src =>
      ({ git_reader_close_process s true with
           child_pid := pid,
           child_watch_source := watch_src, childWatchArmed := true,
           child_stdout_source := stdout_src, stdoutArmed := true,
           child_stderr_source := stderr_src, stderrArmed := true,
           stdout_channel_open := true, stderr_channel_open := true,
           has_child := true,
           error_string := [] }, true)

/-- The state of a running invocation: what `git_reader_start` leaves
behind on success (from a fresh reader), with `error_string` holding
whatever stderr bytes have been accumulated so far. -/
def running (pid stdout_src stderr_src watch_src : Nat) (es : List Char) :
    GitReaderPrivate :=
  { has_child := true, child_pid := pid,
    child_stdout_source := stdout_src, child_stderr_source := stderr_src,
    child_watch_source := watch_src, child_exit_code := 0,
    error_string := es, stdoutArmed := true, stderrArmed := true,
    childWatchArmed := true, stdout_channel_open := true,
    stderr_channel_open := true, emitted := [], killed := false,
    debugOut := [], deliveredChunks := [] }

/-- No watch of this reader is installed in the main loop any more: no
callback of this invocation can ever run again. -/
def Quiesced (s : GitReaderPrivate) : Prop :=
  s.stdoutArmed = false ∧ s.stderrArmed = false ∧ s.childWatchArmed = false

/-- Bookkeeping facts true of every reachable reader state: a zeroed
source id means the corresponding watch is gone, a zeroed pid means the
child watch is gone, and a reader without a child has nothing armed and
no pid. -/
def WFInv (s : GitReaderPrivate) : Prop :=
  (s.child_stdout_source = 0 → s.stdoutArmed = false) ∧
  (s.child_stderr_source = 0 → s.stderrArmed = false) ∧
  (s.child_pid = 0 → s.childWatchArmed = false) ∧
  (s.has_child = false →
    s.stdoutArmed = false ∧ s.stderrArmed = false ∧ s.childWatchArmed = false ∧
    s.child_pid = 0)

/-- Invariant of a single successfully spawned invocation, preserved by
every main-loop event: at most one completion was emitted; if all three
completion signals are recorded then exactly one was emitted; once
something was emitted nothing is armed any more; zeroed ids mean
disarmed watches; and the child record is only dropped together with an
emission. -/
def InvocationInv (s : GitReaderPrivate) : Prop :=
  s.emitted.length ≤ 1 ∧
  ((s.child_pid = 0 ∧ s.child_stdout_source = 0 ∧ s.child_stderr_source = 0) →
    s.emitted.length = 1) ∧
  (s.emitted ≠ [] →
    s.stdoutArmed = false ∧ s.stderrArmed = false ∧ s.childWatchArmed = false) ∧
  (s.child_stdout_source = 0 → s.stdoutArmed = false) ∧
  (s.child_stderr_source = 0 → s.stderrArmed = false) ∧
  (s.child_pid = 0 → s.childWatchArmed = false) ∧
  (s.has_child = false → s.emitted ≠ [])

/-- Did the event deliver a hard read error on one of the pipes? -/
def isReadErrorEvent : Event → Bool
  | Event.stdoutReady (ReadResult.ioErr _) => true
  | Event.stderrReady (ReadResult.ioErr _) => true
  | _ => false

/-- The six arrival orders of the three completion signals. -/
def joinPerms (st : Int) : List (List Event) :=
  [[Event.childExit st, Event.stdoutReady ReadResult.eof, Event.stderrReady ReadResult.eof],
   [Event.childExit st, Event.stderrReady ReadResult.eof, Event.stdoutReady ReadResult.eof],
   [Event.stdoutReady ReadResult.eof, Event.childExit st, Event.stderrReady ReadResult.eof],
   [Event.stdoutReady ReadResult.eof, Event.stderrReady ReadResult.eof, Event.childExit st],
   [Event.stderrReady ReadResult.eof, Event.childExit st, Event.stdoutReady ReadResult.eof],
   [Event.stderrReady ReadResult.eof, Event.stdoutReady ReadResult.eof, Event.childExit st]]

/-- The chunks carried by the normal stdout reads of an event list, in
order. -/
def stdoutChunks (evs : List Event) : List (List Char) :=
  evs.filterMap fun e =>
    match e with
    | Event.stdoutReady (ReadResult.normal c) => some c
    | _ => none

lemma step_of_quiesced {s : GitReaderPrivate} (hq : Quiesced s) (e : Event) :
    step s e = none := by
  obtain ⟨h1, h2, h3⟩ := hq
  cases e with
  | childExit st => simp [step, h3]
  | stdoutReady r => simp [step, h1]
  | stderrReady r => simp [step, h2]

lemma runEvents_of_quiesced {s sf : GitReaderPrivate} {evs : List Event}
    (hq : Quiesced s) (h : runEvents s evs = some sf) : sf = s ∧ evs = [] := by
  cases evs with
  | nil => simp [runEvents] at h; simp [h]
  | cons e evs => simp [runEvents, step_of_quiesced hq e] at h

lemma close_process_emitted (s : GitReaderPrivate) (b : Bool) :
    (git_reader_close_process s b).emitted = s.emitted := by
  unfold git_reader_close_process
  split
  · split <;> rfl
  · rfl

lemma close_process_error_string (s : GitReaderPrivate) (b : Bool) :
    (git_reader_close_process s b).error_string = s.error_string := by
  unfold git_reader_close_process
  split
  · split <;> rfl
  · rfl

lemma run_perm (st : Int) (es : List Char) (pid so se w : Nat)
    (hp : pid ≠ 0) (hso : so ≠ 0) (hse : se ≠ 0)
    (l : List Event) (hl : l ∈ joinPerms st) :
    (runEvents (running pid so se w es) l).map (fun s => s.emitted)
      = some [completion_error st es] := by
  simp only [joinPerms, List.mem_cons, List.not_mem_nil, or_false] at hl
  rcases hl with h | h | h | h | h | h <;> subst h <;>
    simp [runEvents, step, running, git_reader_on_child_exit,
          git_reader_on_child_stdout, git_reader_on_child_stderr,
          git_reader_check_complete, git_reader_close_process, hp, hso, hse]

lemma trim_index_of_all_space {es : List Char} (hws : ∀ c ∈ es, c_isspace c = true) :
    ∀ n, n < es.length → trim_index es n = 0 := by
  intro n
  induction n with
  | zero => intro _; rfl
  | succ m ih =>
      intro hlt
      have hmem : es.getD (m + 1) 'A' ∈ es := by
        rw [List.getD_eq_getElem es 'A' hlt]
        exact List.getElem_mem hlt
      rw [trim_index, if_pos (hws _ hmem)]
      exact ih (Nat.lt_of_succ_lt hlt)

lemma completion_error_of_all_space {st : Int} {es : List Char} (hst : st ≠ 0)
    (hws : ∀ c ∈ es, c_isspace c = true) :
    completion_error st es = some (GError.exitStatus none) := by
  unfold completion_error
  rw [if_pos hst]
  rcases Nat.eq_zero_or_pos es.length with hlen | hlen
  · rw [if_pos hlen]
  · rw [if_neg (Nat.pos_iff_ne_zero.mp hlen)]
    have : trim_index es (es.length - 1) = 0 :=
      trim_index_of_all_space hws _ (Nat.sub_lt hlen Nat.one_pos)
    rw [this]
    simp

lemma accumulate_stderr (pid so se w : Nat) (es : List Char)
    (chunks : List (List Char)) :
    runEvents (running pid so se w es)
        (chunks.map fun c => Event.stderrReady (ReadResult.normal c))
      = some (running pid so se w (es ++ chunks.flatten)) := by
  induction chunks generalizing es with
  | nil => simp [runEvents, running]
  | cons c cs ih =>
      simp only [List.map_cons, runEvents, step, running,
        git_reader_on_child_stderr, if_pos]
      simpa [running, List.flatten] using ih (es ++ c)

lemma inv_step {s s2 : GitReaderPrivate} {e : Event}
    (hI : InvocationInv s) (h : step s e = some s2) : InvocationInv s2 := by
  obtain ⟨h1, h2, h3, h4, h5, h6, h7⟩ := hI
  have hbool : ∀ b : Bool, ¬(b = true) → b = false := by decide
  cases e with
  | childExit st =>
      simp only [step] at h
      split at h
      · rename_i harm
        injection h with hs2
        subst hs2
        have hemp : s.emitted = [] := by
          by_contra hne
          simp [(h3 hne).2.2] at harm
        have hhc : s.has_child = true := by
          by_contra hf
          exact h7 (hbool _ hf) hemp
        unfold git_reader_on_child_exit git_reader_check_complete git_reader_close_process
        by_cases hso : s.child_stdout_source = 0 <;>
          by_cases hse : s.child_stderr_source = 0 <;>
          simp_all [InvocationInv]
      · exact absurd h (by simp)
  | stdoutReady r =>
      simp only [step] at h
      split at h
      · rename_i harm
        injection h with hs2
        subst hs2
        have hemp : s.emitted = [] := by
          by_contra hne
          simp [(h3 hne).1] at harm
        have hhc : s.has_child = true := by
          by_contra hf
          exact h7 (hbool _ hf) hemp
        cases r with
        | normal chunk => exact ⟨h1, h2, h3, h4, h5, h6, h7⟩
        | again => exact ⟨h1, h2, h3, h4, h5, h6, h7⟩
        | eof =>
            unfold git_reader_on_child_stdout git_reader_check_complete
              git_reader_close_process
            by_cases hpid : s.child_pid = 0 <;>
              by_cases hse : s.child_stderr_source = 0 <;>
              simp_all [InvocationInv]
        | ioErr m =>
            unfold git_reader_on_child_stdout git_reader_on_read_error
              git_reader_close_process
            by_cases hpid : s.child_pid = 0 <;>
              by_cases hse : s.child_stderr_source = 0 <;>
              simp_all [InvocationInv]
      · exact absurd h (by simp)
  | stderrReady r =>
      simp only [step] at h
      split at h
      · rename_i harm
        injection h with hs2
        subst hs2
        have hemp : s.emitted = [] := by
          by_contra hne
          simp [(h3 hne).2.1] at harm
        have hhc : s.has_child = true := by
          by_contra hf
          exact h7 (hbool _ hf) hemp
        cases r with
        | normal chunk => exact ⟨h1, h2, h3, h4, h5, h6, h7⟩
        | again => exact ⟨h1, h2, h3, h4, h5, h6, h7⟩
        | eof =>
            unfold git_reader_on_child_stderr git_reader_check_complete
              git_reader_close_process
            by_cases hpid : s.child_pid = 0 <;>
              by_cases hso : s.child_stdout_source = 0 <;>
              simp_all [InvocationInv]
        | ioErr m =>
            unfold git_reader_on_child_stderr git_reader_on_read_error
              git_reader_close_process
            by_cases hpid : s.child_pid = 0 <;>
              by_cases hso : s.child_stdout_source = 0 <;>
              simp_all [InvocationInv]
      · exact absurd h (by simp)

lemma inv_runEvents {s sf : GitReaderPrivate} {evs : List Event}
    (hI : InvocationInv s) (h : runEvents s evs = some sf) : InvocationInv sf := by
  induction evs generalizing s with
  | nil => simp [runEvents] at h; exact h ▸ hI
  | cons e evs ih =>
      simp only [runEvents] at h
      cases hstep : step s e with
      | none => rw [hstep] at h; exact absurd h (by simp)
      | some s1 =>
          rw [hstep] at h
          exact ih (inv_step hI hstep) h

lemma emitted_quiesced_of_inv {s : GitReaderPrivate}
    (hI : InvocationInv s) (hne : s.emitted ≠ []) : Quiesced s :=
  hI.2.2.1 hne

lemma run_after_error_event {s sf : GitReaderPrivate} {evs : List Event}
    (hI : InvocationInv s) (h : runEvents s evs = some sf)
    (he : evs.any isReadErrorEvent = true) : sf.emitted.length = 1 := by
  induction evs generalizing s with
  | nil => simp at he
  | cons e evs ih =>
      simp only [runEvents] at h
      cases hstep : step s e with
      | none => rw [hstep] at h; exact absurd h (by simp)
      | some s1 =>
          rw [hstep] at h
          by_cases herr : isReadErrorEvent e = true
          · have hne : s1.emitted ≠ [] := by
              cases e with
              | childExit st => simp [isReadErrorEvent] at herr
              | stdoutReady r =>
                  cases r <;> simp [isReadErrorEvent] at herr
                  simp only [step] at hstep
                  split at hstep
                  · injection hstep with hs1
                    subst hs1
                    simp [git_reader_on_child_stdout, git_reader_on_read_error,
                      close_process_emitted]
                  · exact absurd hstep (by simp)
              | stderrReady r =>
                  cases r <;> simp [isReadErrorEvent] at herr
                  simp only [step] at hstep
                  split at hstep
                  · injection hstep with hs1
                    subst hs1
                    simp [git_reader_on_child_stderr, git_reader_on_read_error,
                      close_process_emitted]
                  · exact absurd hstep (by simp)
            have hI1 := inv_step hI hstep
            obtain ⟨hsf, _⟩ :=
              runEvents_of_quiesced (emitted_quiesced_of_inv hI1 hne) h
            subst hsf
            have hle := hI1.1
            have hlen : sf.emitted.length ≠ 0 := by
              intro h0
              exact hne (List.length_eq_zero.mp h0)
            omega
          · have he2 : evs.any isReadErrorEvent = true := by
              simp only [List.any_cons, Bool.or_eq_true] at he
              rcases he with h0 | h0
              · exact absurd h0 herr
              · exact h0
            exact ih (inv_step hI hstep) h he2

lemma start_ok_of_new (pid so se w : Nat) :
    git_reader_start git_reader_new (SpawnOutcome.ok pid so se w)
      = (running pid so se w [], true) := rfl

lemma inv_running (pid so se w : Nat) (es : List Char)
    (hp : pid ≠ 0) (hso : so ≠ 0) (hse : se ≠ 0) :
    InvocationInv (running pid so se w es) := by
  unfold InvocationInv running
  simp [hp, hso, hse]

/-- Claim C1: for every invocation whose spawn succeeds, the "completed"
signal is emitted exactly once: at most once along any admissible event
sequence, exactly once when the child-exit, stdout-EOF and stderr-EOF
signals have all been recorded (pid and both source ids zero), and
exactly once when a hard read error occurred. -/
theorem C1_completed_exactly_once (pid so se w : Nat) (evs : List Event)
    (sf : GitReaderPrivate) (hp : pid ≠ 0) (hso : so ≠ 0) (hse : se ≠ 0)
    (hrun : runEvents (git_reader_start git_reader_new (SpawnOutcome.ok pid so se w)).1
        evs = some sf) :
    sf.emitted.length ≤ 1 ∧
    ((sf.child_pid = 0 ∧ sf.child_stdout_source = 0 ∧ sf.child_stderr_source = 0) →
      sf.emitted.length = 1) ∧
    (evs.any isReadErrorEvent = true → sf.emitted.length = 1) := by
  rw [start_ok_of_new] at hrun
  have hI := inv_runEvents (inv_running pid so se w [] hp hso hse) hrun
  exact ⟨hI.1, hI.2.1,
    fun he => run_after_error_event (inv_running pid so se w [] hp hso hse) hrun he⟩

/-- Final state of the C1 witness run: spawn succeeded with pid 1 and
sources 2, 3, 4; the child exited with status 0 and both pipes reached
EOF, so exactly one completion, with no error, was emitted. -/
def c1_witness_state : GitReaderPrivate :=
  { has_child := false, child_pid := 0, child_stdout_source := 0,
    child_stderr_source := 0, child_watch_source := 4, child_exit_code := 0,
    error_string := [], stdoutArmed := false, stderrArmed := false,
    childWatchArmed := false, stdout_channel_open := false,
    stderr_channel_open := false, emitted := [none], killed := false,
    debugOut := [], deliveredChunks := [] }

theorem C1_completed_exactly_once_witness :
    (1 : Nat) ≠ 0 ∧ (2 : Nat) ≠ 0 ∧ (3 : Nat) ≠ 0 ∧
    runEvents (git_reader_start git_reader_new (SpawnOutcome.ok 1 2 3 4)).1
        [Event.childExit 0, Event.stdoutReady ReadResult.eof,
         Event.stderrReady ReadResult.eof] = some c1_witness_state ∧
    (c1_witness_state.emitted.length ≤ 1 ∧
     ((c1_witness_state.child_pid = 0 ∧ c1_witness_state.child_stdout_source = 0 ∧
       c1_witness_state.child_stderr_source = 0) →
       c1_witness_state.emitted.length = 1) ∧
     ([Event.childExit 0, Event.stdoutReady ReadResult.eof,
       Event.stderrReady ReadResult.eof].any isReadErrorEvent = true →
       c1_witness_state.emitted.length = 1)) :=
  ⟨by decide, by decide, by decide, by decide,
   C1_completed_exactly_once 1 2 3 4 _ c1_witness_state (by decide) (by decide)
     (by decide) (by decide)⟩

/-- Claim C2: for any permutation of the three completion signals
(child exited, stdout EOF, stderr EOF), with the same exit status and
the same accumulated stderr bytes, the result delivered with the
"completed" signal is identical — a function of the status and the
buffer only (`accumulate_stderr` relates the buffer parameter to the
stderr reads that accumulated it). -/
theorem C2_join_order_independent (st : Int) (es : List Char) (pid so se w : Nat)
    (hp : pid ≠ 0) (hso : so ≠ 0) (hse : se ≠ 0)
    (l : List Event) (hl : l ∈ joinPerms st) :
    (runEvents (running pid so se w es) l).map (fun s => s.emitted)
      = some [completion_error st es] :=
  run_perm st es pid so se w hp hso hse l hl

theorem C2_join_order_independent_witness :
    ((1 : Nat) ≠ 0 ∧ (2 : Nat) ≠ 0 ∧ (3 : Nat) ≠ 0 ∧
     [Event.stderrReady ReadResult.eof, Event.childExit 1,
      Event.stdoutReady ReadResult.eof] ∈ joinPerms 1) ∧
    (runEvents (running 1 2 3 4 (("boom").toList))
        [Event.stderrReady ReadResult.eof, Event.childExit 1,
         Event.stdoutReady ReadResult.eof]).map (fun s => s.emitted)
      = some [completion_error 1 (("boom").toList)] :=
  ⟨⟨by decide, by decide, by decide, by decide⟩,
   C2_join_order_independent 1 (("boom").toList) 1 2 3 4 (by decide) (by decide)
     (by decide) _ (by decide)⟩

/-- Claim C4: an invocation whose child exits with status 0 completes
with no error (null error), whatever stderr bytes were accumulated in
the diagnostic buffer and in whatever order the three completion
signals arrive. -/
theorem C4_zero_exit_no_error (es : List Char) (pid so se w : Nat)
    (hp : pid ≠ 0) (hso : so ≠ 0) (hse : se ≠ 0)
    (l : List Event) (hl : l ∈ joinPerms 0) :
    (runEvents (running pid so se w es) l).map (fun s => s.emitted)
      = some [none] := by
  have h := run_perm 0 es pid so se w hp hso hse l hl
  simpa [completion_error] using h

theorem C4_zero_exit_no_error_witness :
    ((1 : Nat) ≠ 0 ∧ (2 : Nat) ≠ 0 ∧ (3 : Nat) ≠ 0 ∧
     [Event.childExit 0, Event.stdoutReady ReadResult.eof,
      Event.stderrReady ReadResult.eof] ∈ joinPerms 0) ∧
    (runEvents (running 1 2 3 4 (("warning: noisy stderr\n").toList))
        [Event.childExit 0, Event.stdoutReady ReadResult.eof,
         Event.stderrReady ReadResult.eof]).map (fun s => s.emitted)
      = some [none] :=
  ⟨⟨by decide, by decide, by decide, by decide⟩,
   C4_zero_exit_no_error (("warning: noisy stderr\n").toList) 1 2 3 4 (by decide)
     (by decide) (by decide) _ (by decide)⟩

/-- Claim C9: a non-zero exit with a diagnostic buffer that is empty or
all whitespace completes with an ExitStatus error carrying the fixed,
non-empty generic message "Error invoking git" rather than an empty
string. -/
theorem C9_whitespace_stderr_generic_message (st : Int) (es : List Char)
    (pid so se w : Nat) (hst : st ≠ 0) (hws : ∀ c ∈ es, c_isspace c = true)
    (hp : pid ≠ 0) (hso : so ≠ 0) (hse : se ≠ 0)
    (l : List Event) (hl : l ∈ joinPerms st) :
    (runEvents (running pid so se w es) l).map (fun s => s.emitted)
        = some [some (GError.exitStatus none)] ∧
    gerror_message (GError.exitStatus none) = ("Error invoking git").toList ∧
    ("Error invoking git").toList ≠ ([] : List Char) := by
  refine ⟨?_, rfl, by decide⟩
  have h := run_perm st es pid so se w hp hso hse l hl
  rwa [completion_error_of_all_space hst hws] at h

theorem C9_whitespace_stderr_generic_message_witness :
    ((1 : Int) ≠ 0 ∧ (∀ c ∈ (("  \n").toList), c_isspace c = true) ∧
     (1 : Nat) ≠ 0 ∧ (2 : Nat) ≠ 0 ∧ (3 : Nat) ≠ 0 ∧
     [Event.childExit 1, Event.stdoutReady ReadResult.eof,
      Event.stderrReady ReadResult.eof] ∈ joinPerms 1) ∧
    ((runEvents (running 1 2 3 4 (("  \n").toList))
        [Event.childExit 1, Event.stdoutReady ReadResult.eof,
         Event.stderrReady ReadResult.eof]).map (fun s => s.emitted)
        = some [some (GError.exitStatus none)] ∧
     gerror_message (GError.exitStatus none) = ("Error invoking git").toList ∧
     ("Error invoking git").toList ≠ ([] : List Char)) :=
  ⟨⟨by decide, by decide, by decide, by decide, by decide, by decide⟩,
   C9_whitespace_stderr_generic_message 1 (("  \n").toList) 1 2 3 4 (by decide)
     (by decide) (by decide) (by decide) (by decide) _ (by decide)⟩

/-- Claim C3 (evaluation at the failing input): exit status 1 with
stderr bytes "fatal: bad object\n   " does NOT yield the message
"fatal: bad object".  The trimming loop leaves `len` at the index of
the last non-whitespace character and `g_string_truncate` keeps only
`len` characters, so the last non-whitespace character is dropped too:
the ExitStatus detail is "fatal: bad objec".  This contradicts the
code's own comment ("Remove spaces at the end of the error string"). -/
theorem C3_trim_drops_last_character :
    (runEvents (running 1 2 3 4 [])
        [Event.stderrReady (ReadResult.normal (("fatal: bad object\n   ").toList)),
         Event.childExit 1, Event.stdoutReady ReadResult.eof,
         Event.stderrReady ReadResult.eof]).map (fun s => s.emitted)
      = some [some (GError.exitStatus (some (("fatal: bad objec").toList)))] ∧
    ("fatal: bad objec").toList ≠ ("fatal: bad object").toList :=
  ⟨by decide, by decide⟩

/-- Claim C5 (counterexample): the stdout handler does not hand the raw
chunk to a caller-registered consumer; what it writes out for the chunk
"abc" is the debug line bytes, which differ from the chunk. -/
theorem C5_counterexample_debug_wrapper :
    (runEvents (running 1 2 3 4 [])
        [Event.stdoutReady (ReadResult.normal (("abc").toList))]).map
        (fun s => s.debugOut)
      ≠ some (("abc").toList) := by decide

lemma close_process_deliveredChunks (s : GitReaderPrivate) (b : Bool) :
    (git_reader_close_process s b).deliveredChunks = s.deliveredChunks := by
  unfold git_reader_close_process
  split
  · split <;> rfl
  · rfl

lemma close_process_debugOut (s : GitReaderPrivate) (b : Bool) :
    (git_reader_close_process s b).debugOut = s.debugOut := by
  unfold git_reader_close_process
  split
  · split <;> rfl
  · rfl

lemma check_complete_deliveredChunks (s : GitReaderPrivate) :
    (git_reader_check_complete s).deliveredChunks = s.deliveredChunks := by
  unfold git_reader_check_complete
  split
  · simp [close_process_deliveredChunks]
  · rfl

lemma check_complete_debugOut (s : GitReaderPrivate) :
    (git_reader_check_complete s).debugOut = s.debugOut := by
  unfold git_reader_check_complete
  split
  · simp [close_process_debugOut]
  · rfl

lemma step_chunks {s s1 : GitReaderPrivate} {e : Event}
    (h : step s e = some s1) :
    s1.deliveredChunks = s.deliveredChunks ++ stdoutChunks [e] ∧
    s1.debugOut = s.debugOut ++ (List.map debug_wrap (stdoutChunks [e])).flatten := by
  cases e with
  | childExit st =>
      simp only [step] at h
      split at h
      · injection h with hs
        subst hs
        simp [git_reader_on_child_exit, check_complete_deliveredChunks,
          check_complete_debugOut, stdoutChunks]
      · exact absurd h (by simp)
  | stdoutReady r =>
      simp only [step] at h
      split at h
      · injection h with hs
        subst hs
        cases r <;>
          simp [git_reader_on_child_stdout, git_reader_on_read_error,
            check_complete_deliveredChunks, check_complete_debugOut,
            close_process_deliveredChunks, close_process_debugOut, stdoutChunks]
      · exact absurd h (by simp)
  | stderrReady r =>
      simp only [step] at h
      split at h
      · injection h with hs
        subst hs
        cases r <;>
          simp [git_reader_on_child_stderr, git_reader_on_read_error,
            check_complete_deliveredChunks, check_complete_debugOut,
            close_process_deliveredChunks, close_process_debugOut, stdoutChunks]
      · exact absurd h (by simp)

lemma stdoutChunks_cons (e : Event) (evs : List Event) :
    stdoutChunks (e :: evs) = stdoutChunks [e] ++ stdoutChunks evs := by
  unfold stdoutChunks
  cases e with
  | childExit st => simp
  | stdoutReady r => cases r <;> simp
  | stderrReady r => simp

lemma runEvents_chunks {s sf : GitReaderPrivate} {evs : List Event}
    (h : runEvents s evs = some sf) :
    sf.deliveredChunks = s.deliveredChunks ++ stdoutChunks evs ∧
    sf.debugOut = s.debugOut ++ (List.map debug_wrap (stdoutChunks evs)).flatten := by
  induction evs generalizing s with
  | nil =>
      simp only [runEvents, Option.some.injEq] at h
      subst h
      simp [stdoutChunks]
  | cons e evs ih =>
      simp only [runEvents] at h
      cases hstep : step s e with
      | none => rw [hstep] at h; exact absurd h (by simp)
      | some s1 =>
          rw [hstep] at h
          obtain ⟨ha, hb⟩ := step_chunks hstep
          obtain ⟨hc, hd⟩ := ih h
          rw [stdoutChunks_cons]
          constructor
          · rw [hc, ha, List.append_assoc]
          · rw [hd, hb, List.map_append, List.flatten_append, List.append_assoc]

/-- Claim C5 (amended): each stdout chunk read from the pipe is written
out by the handler as a debug line (the chunk between the bytes of
"got stdout: \"" and "\"\n") on the program's own standard output,
rather than being passed raw to a caller-registered consumer; the chunk
payloads handed to fwrite, in delivery order, are exactly the chunks
read from the pipe, so their concatenation reproduces byte-for-byte the
bytes read from the child's standard output. -/
theorem C5_amended_payloads_reproduce_stream (s0 sf : GitReaderPrivate)
    (evs : List Event) (hrun : runEvents s0 evs = some sf) :
    sf.deliveredChunks = s0.deliveredChunks ++ stdoutChunks evs ∧
    sf.debugOut = s0.debugOut ++ (List.map debug_wrap (stdoutChunks evs)).flatten ∧
    sf.deliveredChunks.flatten
      = s0.deliveredChunks.flatten ++ (stdoutChunks evs).flatten := by
  obtain ⟨ha, hb⟩ := runEvents_chunks hrun
  exact ⟨ha, hb, by rw [ha, List.flatten_append]⟩

/-- State after the C5 witness run: two stdout chunks were read and
printed. -/
def c5_witness_state : GitReaderPrivate :=
  { running 1 2 3 4 [] with
      debugOut := debug_wrap (("ab").toList) ++ debug_wrap (("c").toList),
      deliveredChunks := [("ab").toList, ("c").toList] }

theorem C5_amended_payloads_reproduce_stream_witness :
    runEvents (running 1 2 3 4 [])
        [Event.stdoutReady (ReadResult.normal (("ab").toList)),
         Event.stdoutReady (ReadResult.normal (("c").toList))]
      = some c5_witness_state ∧
    (c5_witness_state.deliveredChunks
        = (running 1 2 3 4 []).deliveredChunks
          ++ stdoutChunks
            [Event.stdoutReady (ReadResult.normal (("ab").toList)),
             Event.stdoutReady (ReadResult.normal (("c").toList))] ∧
     c5_witness_state.debugOut
        = (running 1 2 3 4 []).debugOut
          ++ (List.map debug_wrap
              (stdoutChunks
                [Event.stdoutReady (ReadResult.normal (("ab").toList)),
                 Event.stdoutReady (ReadResult.normal (("c").toList))])).flatten ∧
     c5_witness_state.deliveredChunks.flatten
        = (running 1 2 3 4 []).deliveredChunks.flatten
          ++ (stdoutChunks
              [Event.stdoutReady (ReadResult.normal (("ab").toList)),
               Event.stdoutReady (ReadResult.normal (("c").toList))]).flatten) :=
  ⟨by decide,
   C5_amended_payloads_reproduce_stream (running 1 2 3 4 []) c5_witness_state _
     (by decide)⟩

/-- Claim C6: a hard read error on either pipe terminates the
invocation at once: within that single callback the child is reaped
(force-terminated if still running), both io watches and the child
watch are gone, both channels are shut, and the "completed" signal is
delivered immediately carrying the I/O error — without waiting for the
other completion signals. -/
theorem C6_read_error_short_circuits (pid so se w : Nat) (es m : List Char)
    (hp : pid ≠ 0) (hso : so ≠ 0) (hse : se ≠ 0) :
    (runEvents (running pid so se w es) [Event.stdoutReady (ReadResult.ioErr m)]).map
        (fun s => (s.emitted, s.killed, s.stdoutArmed, s.stderrArmed,
                   s.childWatchArmed, s.stdout_channel_open, s.stderr_channel_open))
      = some ([some (GError.ioErr m)], true, false, false, false, false, false) ∧
    (runEvents (running pid so se w es) [Event.stderrReady (ReadResult.ioErr m)]).map
        (fun s => (s.emitted, s.killed, s.stdoutArmed, s.stderrArmed,
                   s.childWatchArmed, s.stdout_channel_open, s.stderr_channel_open))
      = some ([some (GError.ioErr m)], true, false, false, false, false, false) := by
  constructor <;>
    simp [runEvents, step, running, git_reader_on_child_stdout,
      git_reader_on_child_stderr, git_reader_on_read_error,
      git_reader_close_process, hp, hso, hse]

theorem C6_read_error_short_circuits_witness :
    ((1 : Nat) ≠ 0 ∧ (2 : Nat) ≠ 0 ∧ (3 : Nat) ≠ 0) ∧
    ((runEvents (running 1 2 3 4 []) [Event.stdoutReady (ReadResult.ioErr (("boom").toList))]).map
        (fun s => (s.emitted, s.killed, s.stdoutArmed, s.stderrArmed,
                   s.childWatchArmed, s.stdout_channel_open, s.stderr_channel_open))
      = some ([some (GError.ioErr (("boom").toList))], true, false, false, false, false, false) ∧
     (runEvents (running 1 2 3 4 []) [Event.stderrReady (ReadResult.ioErr (("boom").toList))]).map
        (fun s => (s.emitted, s.killed, s.stdoutArmed, s.stderrArmed,
                   s.childWatchArmed, s.stdout_channel_open, s.stderr_channel_open))
      = some ([some (GError.ioErr (("boom").toList))], true, false, false, false, false, false)) :=
  ⟨⟨by decide, by decide, by decide⟩,
   C6_read_error_short_circuits 1 2 3 4 [] (("boom").toList) (by decide) (by decide)
     (by decide)⟩

/-- Claim C7: when the spawn fails, `git_reader_start` returns FALSE
synchronously, the reader owns no child and no pid, no stream watch and
no exit watch is armed (`Quiesced`, so by `runEvents_of_quiesced` no
callback — in particular no "completed" emission — can ever run for
this call), and nothing was emitted during the call itself.  `WFInv`
holds of every reachable reader state. -/
theorem C7_spawn_failure_synchronous (s : GitReaderPrivate) (msg : List Char)
    (hwf : WFInv s) :
    (git_reader_start s (SpawnOutcome.fail msg)).2 = false ∧
    (git_reader_start s (SpawnOutcome.fail msg)).1.has_child = false ∧
    (git_reader_start s (SpawnOutcome.fail msg)).1.child_pid = 0 ∧
    Quiesced (git_reader_start s (SpawnOutcome.fail msg)).1 ∧
    (git_reader_start s (SpawnOutcome.fail msg)).1.emitted = s.emitted := by
  obtain ⟨hw1, hw2, hw3, hw4⟩ := hwf
  unfold git_reader_start git_reader_close_process Quiesced
  by_cases hc : s.has_child = true <;> by_cases hpid : s.child_pid = 0 <;>
    by_cases hso : s.child_stdout_source = 0 <;>
    by_cases hse : s.child_stderr_source = 0 <;>
    simp_all

theorem C7_spawn_failure_synchronous_witness :
    WFInv (running 1 2 3 4 []) ∧
    ((git_reader_start (running 1 2 3 4 []) (SpawnOutcome.fail (("exec failed").toList))).2 = false ∧
     (git_reader_start (running 1 2 3 4 []) (SpawnOutcome.fail (("exec failed").toList))).1.has_child = false ∧
     (git_reader_start (running 1 2 3 4 []) (SpawnOutcome.fail (("exec failed").toList))).1.child_pid = 0 ∧
     Quiesced (git_reader_start (running 1 2 3 4 []) (SpawnOutcome.fail (("exec failed").toList))).1 ∧
     (git_reader_start (running 1 2 3 4 []) (SpawnOutcome.fail (("exec failed").toList))).1.emitted
        = (running 1 2 3 4 []).emitted) :=
  ⟨by constructor <;> simp [WFInv, running],
   C7_spawn_failure_synchronous (running 1 2 3 4 []) (("exec failed").toList)
     (by constructor <;> simp [WFInv, running])⟩

/-- Claim C8: `git_reader_start` over a still-running invocation first
runs the full teardown `git_reader_close_process (reader, TRUE)` and
only then spawns: the torn-down state has the prior child reaped
(`killed`), no child record, and nothing armed (`Quiesced`, so by
`runEvents_of_quiesced` the discarded invocation can never emit its
"completed" signal), no emission happened during teardown, and the new
reader state is exactly that torn-down state re-armed with the new pid
and sources — so at most one child is owned at any time. -/
theorem C8_restart_discards_prior_invocation (s : GitReaderPrivate)
    (pid so se w : Nat) (hwf : WFInv s) (hc : s.has_child = true)
    (hpid : s.child_pid ≠ 0) :
    (git_reader_start s (SpawnOutcome.ok pid so se w)).2 = true ∧
    git_reader_start s (SpawnOutcome.ok pid so se w)
      = ({ git_reader_close_process s true with
             child_pid := pid,
             child_watch_source := w, childWatchArmed := true,
             child_stdout_source := so, stdoutArmed := true,
             child_stderr_source := se, stderrArmed := true,
             stdout_channel_open := true, stderr_channel_open := true,
             has_child := true, error_string := [] }, true) ∧
    (git_reader_close_process s true).killed = true ∧
    (git_reader_close_process s true).child_pid = 0 ∧
    (git_reader_close_process s true).has_child = false ∧
    Quiesced (git_reader_close_process s true) ∧
    (git_reader_close_process s true).emitted = s.emitted := by
  obtain ⟨hw1, hw2, hw3, hw4⟩ := hwf
  refine ⟨rfl, rfl, ?_, ?_, ?_, ?_, close_process_emitted s true⟩ <;>
    by_cases hso : s.child_stdout_source = 0 <;>
    by_cases hse : s.child_stderr_source = 0 <;>
    simp_all [git_reader_close_process, Quiesced]

theorem C8_restart_discards_prior_invocation_witness :
    (WFInv (running 9 2 3 4 []) ∧ (running 9 2 3 4 []).has_child = true ∧
     (running 9 2 3 4 []).child_pid ≠ 0) ∧
    ((git_reader_start (running 9 2 3 4 []) (SpawnOutcome.ok 10 5 6 7)).2 = true ∧
     git_reader_start (running 9 2 3 4 []) (SpawnOutcome.ok 10 5 6 7)
       = ({ git_reader_close_process (running 9 2 3 4 []) true with
              child_pid := 10,
              child_watch_source := 7, childWatchArmed := true,
              child_stdout_source := 5, stdoutArmed := true,
              child_stderr_source := 6, stderrArmed := true,
              stdout_channel_open := true, stderr_channel_open := true,
              has_child := true, error_string := [] }, true) ∧
     (git_reader_close_process (running 9 2 3 4 []) true).killed = true ∧
     (git_reader_close_process (running 9 2 3 4 []) true).child_pid = 0 ∧
     (git_reader_close_process (running 9 2 3 4 []) true).has_child = false ∧
     Quiesced (git_reader_close_process (running 9 2 3 4 []) true) ∧
     (git_reader_close_process (running 9 2 3 4 []) true).emitted
        = (running 9 2 3 4 []).emitted) :=
  ⟨⟨by constructor <;> simp [WFInv, running], by decide, by decide⟩,
   C8_restart_discards_prior_invocation (running 9 2 3 4 []) 10 5 6 7
     (by constructor <;> simp [WFInv, running]) (by decide) (by decide)⟩

/-- Claim C10: when `start` is called over a running invocation and the
spawn then fails, the prior invocation was nevertheless torn down
first (start with a failing spawn is exactly the teardown: child
reaped, watches gone, nothing emitted), and the diagnostic buffer is
NOT reset — `error_string` is untouched by the teardown and is only
truncated to empty after a successful spawn. -/
theorem C10_failed_respawn_keeps_buffer (s : GitReaderPrivate) (msg : List Char)
    (pid so se w : Nat) (hwf : WFInv s) (hc : s.has_child = true)
    (hpid : s.child_pid ≠ 0) :
    git_reader_start s (SpawnOutcome.fail msg)
      = (git_reader_close_process s true, false) ∧
    (git_reader_start s (SpawnOutcome.fail msg)).1.error_string = s.error_string ∧
    (git_reader_start s (SpawnOutcome.fail msg)).1.killed = true ∧
    Quiesced (git_reader_start s (SpawnOutcome.fail msg)).1 ∧
    (git_reader_start s (SpawnOutcome.fail msg)).1.emitted = s.emitted ∧
    (git_reader_start s (SpawnOutcome.ok pid so se w)).1.error_string = [] := by
  obtain ⟨hw1, hw2, hw3, hw4⟩ := hwf
  refine ⟨rfl, close_process_error_string s true, ?_, ?_,
    close_process_emitted s true, rfl⟩ <;>
    by_cases hso : s.child_stdout_source = 0 <;>
    by_cases hse : s.child_stderr_source = 0 <;>
    simp_all [git_reader_start, git_reader_close_process, Quiesced]

theorem C10_failed_respawn_keeps_buffer_witness :
    (WFInv (running 9 2 3 4 (("stale diagnostics").toList)) ∧
     (running 9 2 3 4 (("stale diagnostics").toList)).has_child = true ∧
     (running 9 2 3 4 (("stale diagnostics").toList)).child_pid ≠ 0) ∧
    (git_reader_start (running 9 2 3 4 (("stale diagnostics").toList))
        (SpawnOutcome.fail (("exec failed").toList))
       = (git_reader_close_process (running 9 2 3 4 (("stale diagnostics").toList)) true,
          false) ∧
     (git_reader_start (running 9 2 3 4 (("stale diagnostics").toList))
        (SpawnOutcome.fail (("exec failed").toList))).1.error_string
       = (running 9 2 3 4 (("stale diagnostics").toList)).error_string ∧
     (git_reader_start (running 9 2 3 4 (("stale diagnostics").toList))
        (SpawnOutcome.fail (("exec failed").toList))).1.killed = true ∧
     Quiesced (git_reader_start (running 9 2 3 4 (("stale diagnostics").toList))
        (SpawnOutcome.fail (("exec failed").toList))).1 ∧
     (git_reader_start (running 9 2 3 4 (("stale diagnostics").toList))
        (SpawnOutcome.fail (("exec failed").toList))).1.emitted
       = (running 9 2 3 4 (("stale diagnostics").toList)).emitted ∧
     (git_reader_start (running 9 2 3 4 (("stale diagnostics").toList))
        (SpawnOutcome.ok 10 5 6 7)).1.error_string = []) :=
  ⟨⟨by constructor <;> simp [WFInv, running], by decide, by decide⟩,
   C10_failed_respawn_keeps_buffer (running 9 2 3 4 (("stale diagnostics").toList))
     (("exec failed").toList) 10 5 6 7
     (by constructor <;> simp [WFInv, running]) (by decide) (by decide)⟩
